import Mathlib

/-!
Verification development for the PortalBox access-control application.

The definitions below are shallow embeddings of the Python sources:

* `src/Database.py`            — directory client (card types, authorization)
* `src/portalbox/PortalBox.py` — hardware abstraction layer (button, RFID)
* `src/PortalBox.py`           — legacy hardware abstraction layer variant
* `src/portalbox/display/DotstarDriver.py` — LED strip driver
* `src/DotstarController.py`   — LED controller front end
* `src/service.py`             — session state machine

Machine integers are modelled as `Int`/`Nat` (Python integers are unbounded,
so no wrap-around is needed).  Calls into the MySQL connector, the GPIO
library and the MFRC522 module are modelled as explicit oracle inputs.
-/

namespace PortalBoxProof

/-! ## Card type constants (src/Database.py lines 13-18) -/

def INVALID_CARD : Int := -1
def SHUTDOWN_CARD : Int := 1
def PROXY_CARD : Int := 2
def TRAINING_CARD : Int := 3
def USER_CARD : Int := 4

/-! ## Directory data model for `is_user_authorized_for_equipment_type`
(src/Database.py lines 328-388).

The tables mention only the columns that the queries in the source touch:
`equipment_types(id, requires_training, charge_policy_id)`,
`users_x_cards(user_id, card_id)`, `payments(user_id)`,
`authorizations(user_id, equipment_type_id)`. -/

structure EquipmentTypeRow where
  id : Int
  requires_training : Bool
  charge_policy_id : Int
deriving DecidableEq, Repr

structure UserCardRow where
  user_id : Int
  card_id : Int
deriving DecidableEq, Repr

structure PaymentRow where
  user_id : Int
deriving DecidableEq, Repr

structure AuthorizationRow where
  user_id : Int
  equipment_type_id : Int
deriving DecidableEq, Repr

structure DbModel where
  equipment_types : List EquipmentTypeRow
  users_x_cards : List UserCardRow
  payments : List PaymentRow
  authorizations : List AuthorizationRow

/-- `SELECT count(p.id) FROM payments AS p INNER JOIN users_x_cards AS u
ON u.user_id = p.user_id WHERE u.card_id = %s` — number of join rows.
Note the query never mentions an equipment type. -/
def payment_count (db : DbModel) (card_id : Int) : Nat :=
  (db.payments.flatMap (fun p =>
    db.users_x_cards.filter (fun u =>
      u.user_id = p.user_id ∧ u.card_id = card_id))).length

/-- `SELECT count(u.id) FROM users_x_cards AS u INNER JOIN authorizations AS a
ON a.user_id = u.user_id WHERE u.card_id = %s AND a.equipment_type_id = %s` -/
def authorization_count (db : DbModel) (card_id equipment_type_id : Int) : Nat :=
  (db.users_x_cards.flatMap (fun u =>
    db.authorizations.filter (fun a =>
      a.user_id = u.user_id ∧ u.card_id = card_id ∧
        a.equipment_type_id = equipment_type_id))).length

/-- `SELECT requires_training, charge_policy_id > 2 FROM equipment_types
WHERE id = %s` followed by `fetchone()`; `none` when no row exists (the
Python then raises `TypeError` while unpacking the tuple). -/
def policy_row (db : DbModel) (equipment_type_id : Int) : Option (Bool × Bool) :=
  (db.equipment_types.find? (fun t => t.id = equipment_type_id)).map
    (fun t => (t.requires_training, t.charge_policy_id > 2))

/-- `Database.is_user_authorized_for_equipment_type` (src/Database.py lines
328-388), success path: the value computed from the table contents when no
connector error occurs.  Returns `none` when the equipment type row is
missing (in Python that raises an uncaught `TypeError`). -/
def is_user_authorized_for_equipment_type (db : DbModel)
    (user_id equipment_type_id : Int) : Option Bool :=
  match policy_row db equipment_type_id with
  | none => none
  | some (requires_training, requires_payment) =>
    if requires_training ∧ requires_payment then
      if 0 < payment_count db user_id then
        if 0 < authorization_count db user_id equipment_type_id then
          some true
        else some false
      else some false
    else if requires_training ∧ ¬requires_payment then
      if 0 < authorization_count db user_id equipment_type_id then
        some true
      else some false
    else if ¬requires_training ∧ requires_payment then
      if 0 < payment_count db user_id then some true else some false
    else
      some true

/-! ## Connector-failure behaviour of the directory operations
(src/Database.py: `get_card_type` lines 391-421, `get_equipment_profile`
lines 156-197, `is_user_authorized_for_equipment_type` lines 328-388).

Each operation body is wrapped in `try ... except mysql.connector.Error`.
The oracle records, for each primitive connector step, whether it raises
(`none`) or what it yields (`some _`).  When a step raises, control jumps
to the `except` clause and the operation returns the current value of its
result variable. -/

/-- Oracle for one run of `Database.get_card_type`.  `execute` covers
`cursor.execute` together with the `rowcount`/`fetchone` harvest:
`some none` means the query succeeded with zero rows. -/
structure CardTypeConn where
  connect : Option Unit
  execute : Option (Option Int)
  cursor_close : Option Unit
  connection_close : Option Unit

/-- `Database.get_card_type` under a connector oracle.  The result variable
`type_id` starts at `-1` and is assigned only by a successful fetch; a
raise at either close step is caught and the current `type_id` returned. -/
def get_card_type_run (persistent : Bool) (c : CardTypeConn) : Int :=
  match c.connect with
  | none => -1
  | some _ =>
    match c.execute with
    | none => -1
    | some row =>
      let type_id := row.getD (-1)
      match c.cursor_close with
      | none => type_id
      | some _ =>
        if persistent then type_id
        else
          match c.connection_close with
          | none => type_id
          | some _ => type_id

/-- Whether a `mysql.connector.Error` is raised somewhere during the
`get_card_type` call, following the same control flow. -/
def get_card_type_raises (persistent : Bool) (c : CardTypeConn) : Bool :=
  match c.connect with
  | none => true
  | some _ =>
    match c.execute with
    | none => true
    | some _ =>
      match c.cursor_close with
      | none => true
      | some _ => if persistent then false else c.connection_close.isNone

/-- The tuple returned by `get_equipment_profile`: equipment id, equipment
type id, equipment type name, location id, location name, timeout. -/
abbrev EquipProfile : Type := Int × Int × Option String × Int × Option String × Int

def default_profile : EquipProfile := (-1, -1, none, -1, none, -1)

/-- Oracle for one run of `Database.get_equipment_profile`. -/
structure ProfileConn where
  connect : Option Unit
  execute : Option (Option EquipProfile)
  cursor_close : Option Unit
  connection_close : Option Unit

/-- `Database.get_equipment_profile` under a connector oracle (lines
156-197): `profile` starts as the all-sentinel tuple and is replaced by a
successful fetch; late raises are caught and the current value returned. -/
def get_equipment_profile_run (persistent : Bool) (c : ProfileConn) : EquipProfile :=
  match c.connect with
  | none => default_profile
  | some _ =>
    match c.execute with
    | none => default_profile
    | some row =>
      let profile := row.getD default_profile
      match c.cursor_close with
      | none => profile
      | some _ =>
        if persistent then profile
        else
          match c.connection_close with
          | none => profile
          | some _ => profile

/-- Oracle for one run of `Database.is_user_authorized_for_equipment_type`.
`policy` is the `(requires_training, charge_policy_id > 2)` row; `payment_q`
and `auth_q` are the counts returned by the two count queries. -/
structure AuthConn where
  connect : Option Unit
  policy : Option (Bool × Bool)
  payment_q : Option Int
  auth_q : Option Int
  cursor_close : Option Unit
  connection_close : Option Unit

/-- `Database.is_user_authorized_for_equipment_type` under a connector
oracle: `is_authorized` starts `false` and is set `true` only after every
query of the taken branch succeeded with a positive count. -/
def is_user_authorized_run (persistent : Bool) (c : AuthConn) : Bool :=
  match c.connect with
  | none => false
  | some _ =>
    match c.policy with
    | none => false
    | some (requires_training, requires_payment) =>
      let is_authorized :=
        if requires_training ∧ requires_payment then
          match c.payment_q with
          | none => none
          | some cnt =>
            if 0 < cnt then
              match c.auth_q with
              | none => none
              | some cnt2 => some (0 < cnt2)
            else some false
        else if requires_training ∧ ¬requires_payment then
          match c.auth_q with
          | none => none
          | some cnt => some (0 < cnt)
        else if ¬requires_training ∧ requires_payment then
          match c.payment_q with
          | none => none
          | some cnt => some (0 < cnt)
        else some true
      match is_authorized with
      | none => false  -- a query raised; is_authorized was still false
      | some v =>
        let v := decide v
        match c.cursor_close with
        | none => v
        | some _ =>
          if persistent then v
          else
            match c.connection_close with
            | none => v
            | some _ => v

/-- A raise at the connection step or at one of the executed data queries,
i.e. before the result of the call was determined. -/
def auth_query_raise (c : AuthConn) : Bool :=
  match c.connect with
  | none => true
  | some _ =>
    match c.policy with
    | none => true
    | some (requires_training, requires_payment) =>
      if requires_training ∧ requires_payment then
        match c.payment_q with
        | none => true
        | some cnt => if 0 < cnt then c.auth_q.isNone else false
      else if requires_training ∧ ¬requires_payment then c.auth_q.isNone
      else if ¬requires_training ∧ requires_payment then c.payment_q.isNone
      else false

/-- A raise at the connection step or at the single data query of
`get_card_type`, i.e. before `type_id` could have been assigned. -/
def card_type_early_raise (c : CardTypeConn) : Bool :=
  c.connect.isNone || c.execute.isNone

/-- A raise at the connection step or at the single data query of
`get_equipment_profile`, i.e. before `profile` could have been assigned. -/
def profile_early_raise (c : ProfileConn) : Bool :=
  c.connect.isNone || c.execute.isNone

/-! ## The directory client's method surface (src/Database.py lines 9-486)
and the database calls made by `PortalBoxApplication.run_session`
(src/service.py lines 222-256). -/

/-- Every method defined on the `Database` class in src/Database.py, in
source order. -/
def database_method_names : List String :=
  ["__init__", "__del__", "_reconnect", "_connect", "is_registered",
   "register", "get_equipment_profile", "log_started_status",
   "log_shutdown_status", "log_access_attempt", "log_access_completion",
   "is_user_authorized_for_equipment_type", "get_card_type",
   "is_training_card_for_equipment_type", "get_user"]

/-- The `self.db.<method>` calls issued by `run_session`, in source order
(src/service.py lines 238, 244, 254). -/
def run_session_db_calls : List String :=
  ["log_access_attempt", "is_user_trainer", "log_access_completion"]

/-! ## Button press detection (src/portalbox/PortalBox.py lines 158-163).

`has_button_been_pressed(self)` simply returns
`GPIO.event_detected(GPIO_BUTTON_PIN)`.  We model the GPIO edge-detection
state as the list of timestamps of rising edges observed since the previous
call; `event_detected` reports whether that list is non-empty and clears
it.  The method has no `max_age` parameter in the source. -/

/-- Returned value of `PortalBox.has_button_been_pressed`: `true` iff any
rising edge occurred since the previous call, regardless of how old it is. -/
def has_button_been_pressed (pending_edges : List Nat) : Bool :=
  !pending_edges.isEmpty

/-- The pending-edge state after a call: `GPIO.event_detected` consumes the
detection flag, so nothing remains pending. -/
def has_button_been_pressed_rest (_pending_edges : List Nat) : List Nat :=
  []

/-- The predicate the spec ascribes to `has_button_been_pressed(max_age)`:
some enqueued timestamp `t` satisfies `now - t < max_age`. -/
def spec_button_pressed (now max_age : Nat) (pending_edges : List Nat) : Bool :=
  pending_edges.any (fun t => now - t < max_age)

/-! ## RFID card reading.

`src/portalbox/PortalBox.py` lines 199-217 (current variant: two request
attempts, `result > 0` guard) and `src/PortalBox.py` lines 129-151 (legacy
variant: one attempt, result returned unconditionally).  The MFRC522 calls
are oracle inputs: whether `MFRC522_Request` / `MFRC522_Anticoll` returned
`MI_OK`, and the 4-byte UID buffer from anti-collision. -/

/-- `result = 0; for i in range(4): result += uid[i] << (8 * (3 - i))` —
pack the 4-byte UID MSB first. -/
def pack_uid (uid : List Nat) : Nat :=
  uid.getD 0 0 * 2 ^ 24 + uid.getD 1 0 * 2 ^ 16 +
    uid.getD 2 0 * 2 ^ 8 + uid.getD 3 0

/-- Oracle for one `read_RFID_card` call of the current variant: the
outcomes of the two request attempts. -/
structure RfidEnv where
  request1_ok : Bool
  anticoll1_ok : Bool
  uid1 : List Nat
  request2_ok : Bool
  anticoll2_ok : Bool
  uid2 : List Nat

/-- `PortalBox.read_RFID_card` (src/portalbox/PortalBox.py lines 199-217),
after the hang check: scan for a card twice; on a fully successful attempt
return the packed UID only if it is positive, otherwise keep trying; give
up with `-1`. -/
def read_RFID_card (e : RfidEnv) : Int :=
  let second : Int :=
    if e.request2_ok then
      if e.anticoll2_ok then
        let result := pack_uid e.uid2
        if 0 < result then (result : Int) else -1
      else -1
    else -1
  if e.request1_ok then
    if e.anticoll1_ok then
      let result := pack_uid e.uid1
      if 0 < result then (result : Int) else second
    else second
  else second

/-- `PortalBox.read_RFID_card` of the legacy variant (src/PortalBox.py
lines 129-151): a single attempt whose packed UID is returned with no
positivity check. -/
def read_RFID_card_legacy (request_ok anticoll_ok : Bool) (uid : List Nat) : Int :=
  if request_ok then
    if anticoll_ok then (pack_uid uid : Int) else -1
  else -1

/-! ## Dotstar LED strip driver (src/portalbox/display/DotstarDriver.py).

`process_command` handles a parsed command (the abstract controller has
already validated token count and ranges, so a command is modelled by its
parsed fields); `strip_tick` is one iteration of the `except` branch of
`strip_driver` (queue `get` timed out, advance the active effect one
step).  Durations are non-negative millisecond counts, so Python's floor
division `//` coincides with `Nat` division. -/

def DEFAULT_BRIGHTNESS : Nat := 16
def MAX_PULSE_BRIGHTNESS : Nat := 30
def MIN_PULSE_BRIGHTNESS : Nat := 3
def PULSE_BRIGHTNESS_STEP : Nat := 2
def LOOP_MS : Nat := 100

/-- `DotstarStrip` (src/portalbox/display/DotstarDriver.py lines 29-71)
plus the `duration`, `repeats` and `wait_ms` attributes that
`process_command` creates on it. -/
structure DotstarStrip where
  length : Nat
  brightness : List Nat
  led_colors : List (Nat × Nat × Nat)
  is_pulsing : Bool
  pulse_rising : Bool
  is_blinking : Bool
  blink_color : Nat × Nat × Nat
  is_wiping : Bool
  wipe_color : Nat × Nat × Nat
  duration : Nat
  repeats : Nat
  wait_ms : Nat
  effect_time : Nat

/-- `DotstarStrip.set_brightness` (lines 73-75). -/
def DotstarStrip.set_brightness (s : DotstarStrip) (b : Nat) : DotstarStrip :=
  { s with brightness := List.replicate s.length b }

/-- `DotstarStrip.fill_pixels` (lines 81-83). -/
def DotstarStrip.fill_pixels (s : DotstarStrip) (c : Nat × Nat × Nat) : DotstarStrip :=
  { s with led_colors := List.replicate s.length c }

/-- `DotstarStrip.set_pixel_color` (lines 85-87). -/
def DotstarStrip.set_pixel_color (s : DotstarStrip) (c : Nat × Nat × Nat)
    (number : Nat) : DotstarStrip :=
  { s with led_colors := s.led_colors.set number c }

/-- A parsed driver command: the token list `color r g b`, `wipe r g b d`,
`blink r g b d reps` or `pulse r g b`. -/
inductive Cmd
  | color (r g b : Nat)
  | wipe (r g b d : Nat)
  | blink (r g b d reps : Nat)
  | pulse (r g b : Nat)
deriving DecidableEq, Repr

/-- `process_command` (src/portalbox/display/DotstarDriver.py lines
114-220), acting on the strip state. -/
def process_command (c : Cmd) (led_strip : DotstarStrip) : DotstarStrip :=
  match c with
  | .blink red green blue d reps =>
    let led_strip := { led_strip with
      is_wiping := false, is_pulsing := false,
      duration := d, repeats := reps }
    let led_strip := led_strip.fill_pixels (red, green, blue)
    let led_strip := { led_strip with is_blinking := true, effect_time := 0 }
    let led_strip := led_strip.set_brightness MIN_PULSE_BRIGHTNESS
    let w := led_strip.duration / (2 * led_strip.repeats)
    let w := (w + LOOP_MS / 2) / LOOP_MS * LOOP_MS
    let w := if w < LOOP_MS then LOOP_MS else w
    { led_strip with wait_ms := w, duration := w * 2 * led_strip.repeats }
  | .wipe red green blue d =>
    let led_strip := { led_strip with
      is_blinking := false, is_pulsing := false,
      duration := d, wipe_color := (red, green, blue), is_wiping := true }
    let led_strip := led_strip.set_brightness DEFAULT_BRIGHTNESS
    let led_strip := { led_strip with effect_time := 0 }
    let w := led_strip.duration / led_strip.length
    let w := (w + LOOP_MS / 2) / LOOP_MS * LOOP_MS
    let w := if w < LOOP_MS then LOOP_MS else w
    let led_strip := { led_strip with wait_ms := w, duration := w * led_strip.length }
    led_strip.set_pixel_color led_strip.wipe_color 0
  | .color red green blue =>
    let led_strip := { led_strip with is_wiping := false }
    let led_strip :=
      if (red, green, blue) = ((0, 0, 0) : Nat × Nat × Nat) then
        { led_strip with is_blinking := false, is_pulsing := false }
      else led_strip
    let led_strip :=
      if ¬led_strip.is_blinking ∧ ¬led_strip.is_pulsing then
        led_strip.set_brightness DEFAULT_BRIGHTNESS
      else led_strip
    led_strip.fill_pixels (red, green, blue)
  | .pulse red green blue =>
    let led_strip := { led_strip with is_blinking := false, is_wiping := false }
    let led_strip := led_strip.fill_pixels (red, green, blue)
    if ¬led_strip.is_pulsing then
      let led_strip := led_strip.set_brightness DEFAULT_BRIGHTNESS
      { led_strip with is_pulsing := true, pulse_rising := false }
    else led_strip

/-- One no-command iteration of `strip_driver` (src/portalbox/display/
DotstarDriver.py lines 242-291): the queue `get` timed out, so each active
effect advances one step.  The trailing `show()` only transmits state and
is not modelled. -/
def strip_tick (led_strip : DotstarStrip) : DotstarStrip :=
  let led_strip :=
    if led_strip.is_blinking then
      if led_strip.effect_time < led_strip.duration then
        let led_strip :=
          if (led_strip.effect_time / led_strip.wait_ms) % 2 = 0 then
            led_strip.set_brightness MIN_PULSE_BRIGHTNESS
          else
            led_strip.set_brightness MAX_PULSE_BRIGHTNESS
        { led_strip with effect_time := led_strip.effect_time + LOOP_MS }
      else
        { led_strip with is_blinking := false }
    else led_strip
  let led_strip :=
    if led_strip.is_wiping then
      if led_strip.effect_time < led_strip.duration then
        let index := led_strip.effect_time / led_strip.wait_ms
        let led_strip := led_strip.set_pixel_color led_strip.wipe_color index
        { led_strip with effect_time := led_strip.effect_time + LOOP_MS }
      else
        ({ led_strip with is_wiping := false }).fill_pixels led_strip.wipe_color
    else led_strip
  if led_strip.is_pulsing then
    let brightness := led_strip.brightness.getD 0 0
    if led_strip.pulse_rising then
      let brightness := brightness + PULSE_BRIGHTNESS_STEP
      if MAX_PULSE_BRIGHTNESS ≤ brightness then
        ({ led_strip with pulse_rising := false }).set_brightness MAX_PULSE_BRIGHTNESS
      else led_strip.set_brightness brightness
    else
      let brightness := brightness - PULSE_BRIGHTNESS_STEP
      if brightness ≤ MIN_PULSE_BRIGHTNESS then
        ({ led_strip with pulse_rising := true }).set_brightness MIN_PULSE_BRIGHTNESS
      else led_strip.set_brightness brightness
  else led_strip

/-- Run `n` consecutive no-command driver iterations. -/
def run_ticks : Nat → DotstarStrip → DotstarStrip
  | 0, s => s
  | n + 1, s => run_ticks n (strip_tick s)

/-! ## DotstarController.flash_display (src/DotstarController.py lines
115-134).

`_transmit` puts a command on the driver queue; `_receive` blocks on
`command_queue.join()` and returns `True` once the queue drains.  The
commented-out `color end_color` command means `command` still holds the
blink command when it is re-transmitted.  `drain_ok` records whether the
first `_receive` returned (drained successfully). -/

/-- The list of commands `flash_display` transmits to the driver. -/
def flash_display (flash_color : Nat × Nat × Nat) (d flashes : Nat)
    (_end_color : Nat × Nat × Nat) (drain_ok : Bool) : List Cmd :=
  let command := Cmd.blink flash_color.1 flash_color.2.1 flash_color.2.2 d flashes
  let success := drain_ok
  if success then [command, command] else [command]

/-! ## The session state machine (src/service.py).

Each blocking wait loop of `PortalBoxApplication` is a phase; one step of
the machine is one iteration of the loop the control is currently in,
together with the straight-line code executed on leaving it (there is no
`sleep` between a loop exit and the next loop entry, so folding them into
one step loses no observable intermediate state).  Signal-driven exit
(`running = False`) is asynchronous and outside this model.

All `self.box` / `self.db` interactions of an iteration are oracle fields
of `Input`:

* `uid` — `box.read_RFID_card()` (`-1` when no card);
* `card_type` — `db.get_card_type(uid)`;
* `authorized` — `db.is_user_authorized_for_equipment_type(uid, ...)`;
* `is_trainer` — `db.is_user_trainer(uid)` (the service calls this on the
  `Database` object; `Database.py` does not define it — see the claim about
  `is_user_trainer` — so its boolean result is an unconstrained oracle);
* `training_valid` — `db.is_training_card_for_equipment_type(uid, ...)`;
* `button` — `box.has_button_been_pressed()`;
* `timeout_expired` — `timeout_period > 0 and time() - start_time >
  timeout_period` (line 299);
* `grace_expired` — `time() - grace_start_time >= grace_seconds`;
* `prev_seen` — `uid == previous_uid` in the grace-removal loop. -/

inductive Phase
  | idle
  | runSession
  | graceRemoval
  | graceTimeout
  | forgottenCard
  | unauthorizedRemoval
  | shutdown
deriving DecidableEq, Repr

structure BoxState where
  phase : Phase
  power : Bool
  authorized_uid : Int
  proxy_uid : Int
  training_mode : Bool
  user_is_trainer : Bool
  /-- the `user_id` argument `run_session` was entered with; used by the
  final `log_access_completion` call (src/service.py line 254). -/
  session_uid : Int
deriving DecidableEq, Repr

structure Input where
  uid : Int
  card_type : Int
  authorized : Bool
  is_trainer : Bool
  training_valid : Bool
  button : Bool
  timeout_expired : Bool
  grace_expired : Bool
  prev_seen : Bool
deriving DecidableEq, Repr

/-- Observable side effects of a step. -/
inductive Event
  | power_on
  | power_off
  | log_access_attempt (uid : Int) (success : Bool)
  | log_access_completion (uid : Int)
  | log_shutdown (uid : Int)
deriving DecidableEq, Repr

/-- The tail of `run_session` (src/service.py lines 252-255), executed when
`wait_for_authorized_card_removal` returns: power off, log the completion
for the original `user_id`, clear `authorized_uid`; control returns to the
`wait_for_access_card` loop. -/
def end_session (s : BoxState) : BoxState × List Event :=
  ({ s with phase := .idle, power := false, authorized_uid := -1 },
   [.power_off, .log_access_completion s.session_uid])

/-- One iteration of the `wait_for_access_card` loop (src/service.py lines
183-219), with session start (`run_session` lines 222-250) folded into the
user-card branch. -/
def wait_for_access_card_step (s : BoxState) (i : Input) : BoxState × List Event :=
  if -1 < i.uid then
    if i.card_type = SHUTDOWN_CARD then
      ({ s with phase := .shutdown }, [.log_shutdown i.uid])
    else if i.card_type = USER_CARD then
      if i.authorized then
        -- run_session: set session fields, power on, log success, look up
        -- the trainer flag; then wait_for_authorized_card_removal entry
        -- (lines 286-287) sets card_present and clears proxy_uid.
        ({ s with phase := .runSession, power := true,
                  authorized_uid := i.uid, proxy_uid := -1,
                  training_mode := false, user_is_trainer := i.is_trainer,
                  session_uid := i.uid },
         [.power_on, .log_access_attempt i.uid true])
      else
        ({ s with phase := .unauthorizedRemoval },
         [.log_access_attempt i.uid false])
    else
      ({ s with phase := .unauthorizedRemoval },
       [.log_access_attempt i.uid false])
  else (s, [])

/-- One iteration of the `wait_for_authorized_card_removal` loop
(src/service.py lines 296-335): timeout check first, then the card scan;
a non-matching scan enters `wait_for_user_card_return`, whose entry code
(lines 352-354) clears `card_present` and `proxy_uid`. -/
def wait_for_authorized_card_removal_step (s : BoxState) (i : Input) :
    BoxState × List Event :=
  if i.timeout_expired then
    ({ s with phase := .graceTimeout }, [])
  else if -1 < i.uid ∧ (i.uid = s.authorized_uid ∨ i.uid = s.proxy_uid) then
    (s, [])
  else
    ({ s with phase := .graceRemoval, proxy_uid := -1 }, [])

/-- One iteration of the `wait_for_user_card_return` loop (src/service.py
lines 370-423): the loop guard's deadline first, then the button, then the
card scan with its proxy/training handling.  Loop exits with
`card_present = False` fall through to the `run_session` tail. -/
def wait_for_user_card_return_step (s : BoxState) (i : Input) :
    BoxState × List Event :=
  if i.grace_expired then end_session s
  else if i.button then end_session s
  else if -1 < i.uid ∧ ¬i.prev_seen then
    if i.uid = s.authorized_uid then
      ({ s with phase := .runSession }, [])
    else if ¬s.training_mode then  -- trainers may not use proxy cards
      if i.card_type = PROXY_CARD then
        ({ s with phase := .runSession, proxy_uid := i.uid,
                  user_is_trainer := false }, [])
      else if i.card_type = TRAINING_CARD then
        if -1 < s.proxy_uid then (s, [])        -- disallowed with proxy
        else if ¬s.user_is_trainer then (s, []) -- user is not a trainer
        else if i.training_valid then
          ({ s with phase := .runSession, training_mode := true,
                    user_is_trainer := false, authorized_uid := i.uid },
           [.log_access_attempt i.uid true])
        else (s, [])
      else (s, [])
    else (s, [])
  else (s, [])

/-- One iteration of the `wait_for_timeout_grace_period_to_expire` loop
(src/service.py lines 451-514), with the post-loop code folded into the
expiry branch: power off (line 482), then either the forgotten-card wait
or the `run_session` tail. -/
def wait_for_timeout_grace_period_to_expire_step (s : BoxState) (i : Input) :
    BoxState × List Event :=
  if i.grace_expired then
    if -1 < i.uid then
      -- card still present: email the user and wait for removal
      ({ s with phase := .forgottenCard, power := false }, [.power_off])
    else
      -- card removed: return with card_present = False; run_session tail
      -- powers off a second time and logs the completion
      ({ s with phase := .idle, power := false, authorized_uid := -1 },
       [.power_off, .power_off, .log_access_completion s.session_uid])
  else if i.button then
    if -1 < i.uid then
      -- card still present: session renewed, start_time reset by caller
      ({ s with phase := .runSession }, [])
    else
      end_session s
  else (s, [])

/-- One iteration of the forgotten-card wait (src/service.py lines
502-508): leave once the card disappears, then the `run_session` tail runs. -/
def forgotten_card_step (s : BoxState) (i : Input) : BoxState × List Event :=
  if i.uid < 0 then
    ({ s with phase := .idle, power := false, authorized_uid := -1 },
     [.power_off, .log_access_completion s.session_uid])
  else (s, [])

/-- One iteration of the `wait_for_unauthorized_card_removal` loop
(src/service.py lines 269-277). -/
def wait_for_unauthorized_card_removal_step (s : BoxState) (i : Input) :
    BoxState × List Event :=
  if i.uid < 0 then ({ s with phase := .idle }, []) else (s, [])

/-- One step of the session state machine. -/
def stepFsm (s : BoxState) (i : Input) : BoxState × List Event :=
  match s.phase with
  | .idle => wait_for_access_card_step s i
  | .runSession => wait_for_authorized_card_removal_step s i
  | .graceRemoval => wait_for_user_card_return_step s i
  | .graceTimeout => wait_for_timeout_grace_period_to_expire_step s i
  | .forgottenCard => forgotten_card_step s i
  | .unauthorizedRemoval => wait_for_unauthorized_card_removal_step s i
  | .shutdown => (s, [])

/-- State on entering the card-wait loop after identification
(src/service.py lines 151-169 and the power-off in `PortalBox.__init__`). -/
def initState : BoxState :=
  { phase := .idle, power := false, authorized_uid := -1, proxy_uid := -1,
    training_mode := false, user_is_trainer := false, session_uid := -1 }

inductive Reachable : BoxState → Prop
  | init : Reachable initState
  | step {s : BoxState} (i : Input) : Reachable s → Reachable (stepFsm s i).1

/-- Run the machine over a list of inputs. -/
def steps_fsm (s : BoxState) : List Input → BoxState
  | [] => s
  | i :: rest => steps_fsm (stepFsm s i).1 rest

/-- The trajectory stays inside one session: no state along the way has
returned to the idle card-wait loop. -/
def session_live (s : BoxState) : List Input → Bool
  | [] => true
  | i :: rest => (s.phase != Phase.idle) && session_live (stepFsm s i).1 rest

/-- The state invariant of the machine: equipment power is on exactly in
the three session phases, and the grace-removal loop always runs with
`proxy_uid` cleared. -/
def FsmInv (s : BoxState) : Prop :=
  (s.power = true ↔
    (s.phase = .runSession ∨ s.phase = .graceRemoval ∨ s.phase = .graceTimeout))
  ∧ (s.phase = .graceRemoval → s.proxy_uid = -1)

theorem initState_inv : FsmInv initState := by
  constructor <;> simp [initState, FsmInv]

set_option maxHeartbeats 1000000 in
theorem stepFsm_preserves_inv (s : BoxState) (i : Input) (h : FsmInv s) :
    FsmInv (stepFsm s i).1 := by
  obtain ⟨hpow, hgr⟩ := h
  cases hp : s.phase
  case idle =>
    have hpf : s.power = false := by simpa [hp] using hpow
    simp only [stepFsm, hp]
    unfold wait_for_access_card_step
    repeat' split
    all_goals simp [FsmInv, hpf, hp]
  case runSession =>
    have hpt : s.power = true := hpow.mpr (Or.inl hp)
    simp only [stepFsm, hp]
    unfold wait_for_authorized_card_removal_step
    repeat' split
    all_goals simp [FsmInv, hpt, hp]
  case graceRemoval =>
    have hpt : s.power = true := hpow.mpr (Or.inr (Or.inl hp))
    have hpr : s.proxy_uid = -1 := hgr hp
    simp only [stepFsm, hp]
    unfold wait_for_user_card_return_step end_session
    repeat' split
    all_goals simp [FsmInv, hpt, hp, hpr]
  case graceTimeout =>
    have hpt : s.power = true := hpow.mpr (Or.inr (Or.inr hp))
    simp only [stepFsm, hp]
    unfold wait_for_timeout_grace_period_to_expire_step end_session
    repeat' split
    all_goals simp [FsmInv, hpt, hp]
  case forgottenCard =>
    have hpf : s.power = false := by simpa [hp] using hpow
    simp only [stepFsm, hp]
    unfold forgotten_card_step
    repeat' split
    all_goals simp [FsmInv, hpf, hp]
  case unauthorizedRemoval =>
    have hpf : s.power = false := by simpa [hp] using hpow
    simp only [stepFsm, hp]
    unfold wait_for_unauthorized_card_removal_step
    repeat' split
    all_goals simp [FsmInv, hpf, hp]
  case shutdown =>
    have hpf : s.power = false := by simpa [hp] using hpow
    simp only [stepFsm, hp]
    simp [FsmInv, hpf, hp]

theorem reachable_inv (s : BoxState) (h : Reachable s) : FsmInv s := by
  induction h with
  | init => exact initState_inv
  | step i _ ih => exact stepFsm_preserves_inv _ i ih

set_option maxHeartbeats 1000000 in
theorem stepFsm_power_on_count (s : BoxState) (i : Input) :
    (stepFsm s i).2.count Event.power_on =
      (if s.phase = .idle ∧ (stepFsm s i).1.phase = .runSession then 1 else 0) := by
  generalize hstep : stepFsm s i = t
  cases hp : s.phase <;>
    simp only [stepFsm, hp] at hstep <;>
    try simp only [wait_for_access_card_step, wait_for_authorized_card_removal_step,
      wait_for_user_card_return_step, wait_for_timeout_grace_period_to_expire_step,
      forgotten_card_step, wait_for_unauthorized_card_removal_step, end_session] at hstep
  all_goals repeat' split at hstep
  all_goals subst hstep
  all_goals simp [hp]

set_option maxHeartbeats 1000000 in
/-- A step never turns the trainer or training flags on while a session is
in progress (they are only set at session start, from the idle phase). -/
theorem not_trainer_preserved (s : BoxState) (i : Input)
    (hph : s.phase ≠ Phase.idle)
    (ht : s.training_mode = false) (hu : s.user_is_trainer = false) :
    (stepFsm s i).1.training_mode = false ∧
      (stepFsm s i).1.user_is_trainer = false := by
  generalize hstep : stepFsm s i = t
  cases hp : s.phase <;>
    first
      | exact absurd hp hph
      | (simp only [stepFsm, hp] at hstep;
         try simp only [wait_for_authorized_card_removal_step,
           wait_for_user_card_return_step,
           wait_for_timeout_grace_period_to_expire_step, forgotten_card_step,
           wait_for_unauthorized_card_removal_step, end_session] at hstep)
  all_goals repeat' split at hstep
  all_goals subst hstep
  all_goals simp_all

theorem steps_fsm_not_trainer (is : List Input) (s : BoxState)
    (ht : s.training_mode = false) (hu : s.user_is_trainer = false)
    (hl : session_live s is = true) :
    (steps_fsm s is).training_mode = false ∧
      (steps_fsm s is).user_is_trainer = false := by
  induction is generalizing s with
  | nil => exact ⟨ht, hu⟩
  | cons i rest ih =>
    rw [session_live, Bool.and_eq_true, bne_iff_ne] at hl
    obtain ⟨hne, hl2⟩ := hl
    obtain ⟨h1, h2⟩ := not_trainer_preserved s i hne ht hu
    rw [steps_fsm]
    exact ih _ h1 h2 hl2

/-! ## Claim theorems for the session FSM -/

/-- Claim C1: in every reachable state of the session FSM, equipment power
is on exactly when the state is `RunSession`, `GraceRemoval` or
`GraceTimeout` (so it is off in the idle card-wait loop, in the
forgotten-card wait, in unauthorized-removal and at shutdown), and a step
emits the power-on command exactly when it starts a session out of the
idle loop — precisely once per session start and never elsewhere. -/
theorem equipment_power_iff_session_phase (s : BoxState) (i : Input)
    (h : Reachable s) :
    (s.power = true ↔
      (s.phase = .runSession ∨ s.phase = .graceRemoval ∨ s.phase = .graceTimeout))
    ∧ (stepFsm s i).2.count Event.power_on =
        (if s.phase = .idle ∧ (stepFsm s i).1.phase = .runSession then 1 else 0) :=
  ⟨(reachable_inv s h).1, stepFsm_power_on_count s i⟩

/-- A no-card idle input, used to exercise the theorems at the initial
state. -/
def idle_input : Input :=
  { uid := -1, card_type := -1, authorized := false, is_trainer := false,
    training_valid := false, button := false, timeout_expired := false,
    grace_expired := false, prev_seen := false }

theorem equipment_power_iff_session_phase_witness :
    (initState.power = true ↔
      (initState.phase = .runSession ∨ initState.phase = .graceRemoval ∨
        initState.phase = .graceTimeout))
    ∧ (stepFsm initState idle_input).2.count Event.power_on =
        (if initState.phase = .idle ∧
            (stepFsm initState idle_input).1.phase = .runSession
         then 1 else 0) :=
  equipment_power_iff_session_phase initState idle_input Reachable.init

set_option maxHeartbeats 1000000 in
/-- Claim C4: a training card presented during the grace-removal wait is
accepted (the step turns `training_mode` on) only when `proxy_uid = -1`,
`user_is_trainer` is true and the directory confirms the training card for
this equipment type; the accepting step sets `authorized_uid` to the
card's UID, clears `user_is_trainer`, and logs one successful access
attempt. -/
theorem training_card_acceptance (s : BoxState) (i : Input)
    (hr : Reachable s) (hp : s.phase = Phase.graceRemoval)
    (h0 : s.training_mode = false)
    (h1 : (stepFsm s i).1.training_mode = true) :
    s.proxy_uid = -1 ∧ s.user_is_trainer = true ∧
    i.card_type = TRAINING_CARD ∧ i.training_valid = true ∧
    (stepFsm s i).1.authorized_uid = i.uid ∧
    (stepFsm s i).1.user_is_trainer = false ∧
    (stepFsm s i).2 = [Event.log_access_attempt i.uid true] := by
  have hpr : s.proxy_uid = -1 := (reachable_inv s hr).2 hp
  generalize hstep : stepFsm s i = t at h1 ⊢
  simp only [stepFsm, hp, wait_for_user_card_return_step, end_session] at hstep
  repeat' split at hstep
  all_goals subst hstep
  all_goals simp_all [hpr]

/-- Input that starts a session for the trainer with card UID 5. -/
def trainer_session_input : Input :=
  { uid := 5, card_type := USER_CARD, authorized := true, is_trainer := true,
    training_valid := false, button := false, timeout_expired := false,
    grace_expired := false, prev_seen := false }

/-- Input presenting training card UID 7, confirmed by the directory. -/
def training_card_input : Input :=
  { uid := 7, card_type := TRAINING_CARD, authorized := false,
    is_trainer := false, training_valid := true, button := false,
    timeout_expired := false, grace_expired := false, prev_seen := false }

/-- The grace-removal state reached by: trainer card 5 starts a session,
then the card disappears. -/
def c4_state : BoxState :=
  (stepFsm (stepFsm initState trainer_session_input).1 idle_input).1

theorem c4_state_reachable : Reachable c4_state :=
  Reachable.step idle_input (Reachable.step trainer_session_input Reachable.init)

theorem training_card_acceptance_witness :
    c4_state.proxy_uid = -1 ∧ c4_state.user_is_trainer = true ∧
    training_card_input.card_type = TRAINING_CARD ∧
    training_card_input.training_valid = true ∧
    (stepFsm c4_state training_card_input).1.authorized_uid =
      training_card_input.uid ∧
    (stepFsm c4_state training_card_input).1.user_is_trainer = false ∧
    (stepFsm c4_state training_card_input).2 =
      [Event.log_access_attempt training_card_input.uid true] :=
  training_card_acceptance c4_state training_card_input c4_state_reachable
    (by decide) (by decide) (by decide)

set_option maxHeartbeats 1000000 in
/-- Claim C9: when a proxy card is accepted during the grace-removal wait,
the step records `proxy_uid` and also clears `user_is_trainer`; from then
on, as long as the session does not end (the trajectory never returns to
the idle card-wait loop), `training_mode` can never turn on and
`user_is_trainer` stays false — even after the proxy card is removed and
the original authorized card returns. -/
theorem proxy_acceptance_blocks_training (s : BoxState) (i : Input)
    (is : List Input) (hr : Reachable s) (hp : s.phase = Phase.graceRemoval)
    (hacc : -1 < (stepFsm s i).1.proxy_uid)
    (hlive : session_live (stepFsm s i).1 is = true) :
    (stepFsm s i).1.proxy_uid = i.uid ∧
    (stepFsm s i).1.user_is_trainer = false ∧
    (stepFsm s i).1.training_mode = false ∧
    (steps_fsm (stepFsm s i).1 is).training_mode = false ∧
    (steps_fsm (stepFsm s i).1 is).user_is_trainer = false := by
  have hpr : s.proxy_uid = -1 := (reachable_inv s hr).2 hp
  have key : (stepFsm s i).1.proxy_uid = i.uid ∧
      (stepFsm s i).1.user_is_trainer = false ∧
      (stepFsm s i).1.training_mode = false := by
    generalize hstep : stepFsm s i = t at hacc ⊢
    simp only [stepFsm, hp, wait_for_user_card_return_step, end_session] at hstep
    repeat' split at hstep
    all_goals subst hstep
    all_goals simp_all [hpr]
  obtain ⟨k1, k2, k3⟩ := key
  obtain ⟨m1, m2⟩ := steps_fsm_not_trainer is _ k3 k2 hlive
  exact ⟨k1, k2, k3, m1, m2⟩

/-- Input presenting proxy card UID 9. -/
def proxy_card_input : Input :=
  { uid := 9, card_type := PROXY_CARD, authorized := false,
    is_trainer := false, training_valid := false, button := false,
    timeout_expired := false, grace_expired := false, prev_seen := false }

/-- Input presenting the original authorized card UID 5 again. -/
def original_card_input : Input :=
  { uid := 5, card_type := USER_CARD, authorized := true, is_trainer := true,
    training_valid := false, button := false, timeout_expired := false,
    grace_expired := false, prev_seen := false }

/-- After the proxy is accepted: proxy card removed (back to grace
removal), a confirmed training card is tried, then the original card
returns. -/
def c9_inputs : List Input :=
  [idle_input, training_card_input, original_card_input]

theorem proxy_acceptance_blocks_training_witness :
    (stepFsm c4_state proxy_card_input).1.proxy_uid = proxy_card_input.uid ∧
    (stepFsm c4_state proxy_card_input).1.user_is_trainer = false ∧
    (stepFsm c4_state proxy_card_input).1.training_mode = false ∧
    (steps_fsm (stepFsm c4_state proxy_card_input).1 c9_inputs).training_mode
      = false ∧
    (steps_fsm (stepFsm c4_state proxy_card_input).1 c9_inputs).user_is_trainer
      = false :=
  proxy_acceptance_blocks_training c4_state proxy_card_input c9_inputs
    c4_state_reachable (by decide) (by decide) (by decide)

/-! ## Claim theorems for the directory client -/

/-- Claim C2: when the equipment type's policy row exists,
`is_user_authorized_for_equipment_type` returns true exactly when, for
each flag set in the `(requires_training, requires_payment)` pair, a
matching record exists: an authorization join row for the card when
training is required, and a non-empty payment join for the card's holder
when payment is required (a payment row for the user, not one tied to the
equipment type — `payment_count` never looks at the equipment type).
When neither flag is set the user is implicitly authorized. -/
theorem user_authorization_policy (db : DbModel)
    (user_id equipment_type_id : Int) (rt rp : Bool)
    (h : policy_row db equipment_type_id = some (rt, rp)) :
    is_user_authorized_for_equipment_type db user_id equipment_type_id =
      some true
    ↔ ((rt = true → 0 < authorization_count db user_id equipment_type_id)
        ∧ (rp = true → 0 < payment_count db user_id)) := by
  unfold is_user_authorized_for_equipment_type
  rw [h]
  rcases rt <;> rcases rp <;> split_ifs <;> simp_all

/-- A one-user directory: equipment type 7 requires training and payment
(`charge_policy_id = 3 > 2`); user 100 holds card 42, has a payment row
and an authorization for type 7. -/
def sample_db : DbModel :=
  { equipment_types := [{ id := 7, requires_training := true,
                          charge_policy_id := 3 }],
    users_x_cards := [{ user_id := 100, card_id := 42 }],
    payments := [{ user_id := 100 }],
    authorizations := [{ user_id := 100, equipment_type_id := 7 }] }

theorem user_authorization_policy_witness :
    is_user_authorized_for_equipment_type sample_db 42 7 = some true :=
  (user_authorization_policy sample_db 42 7 true true (by decide)).mpr
    (by decide)

/-- Claim C3: `run_session` calls `self.db.is_user_trainer(user_id)` at
session start, but the `Database` class defines no method of that name, so
in every authorized user session the call raises `AttributeError` instead
of returning a boolean. -/
theorem is_user_trainer_missing :
    run_session_db_calls.contains "is_user_trainer" = true ∧
    database_method_names.contains "is_user_trainer" = false := by
  decide

/-! ## Claim theorems for the button queue -/

/-- Claim C5, counterexample: a single pending rising edge with timestamp
0 read at time 100 s makes `has_button_been_pressed` return true, although
no enqueued timestamp satisfies `now - t < max_age` for the claimed
default `max_age = 9` s. -/
theorem has_button_been_pressed_ignores_age :
    has_button_been_pressed [0] = true ∧
    spec_button_pressed 100 9 [0] = false := by
  decide

/-- Claim C5, amended: `has_button_been_pressed` takes no `max_age`
argument; it returns `GPIO.event_detected`, which is true exactly when at
least one rising edge occurred since the previous call — regardless of the
edge's age — and every call consumes all pending events. -/
theorem has_button_been_pressed_spec (pending_edges : List Nat) :
    (has_button_been_pressed pending_edges = true ↔ pending_edges ≠ []) ∧
    has_button_been_pressed_rest pending_edges = [] := by
  constructor
  · simp [has_button_been_pressed]
  · rfl

/-! ## Claim theorems for the RFID reader -/

/-- Claim C6: the current reader (src/portalbox/PortalBox.py) indeed never
returns 0 — every call yields a positive packed UID or the no-card
sentinel `-1` — but the legacy variant (src/PortalBox.py) returns the
packed UID with no positivity check: when both MFRC522 calls succeed and
the anti-collision buffer is all zero bytes it returns 0, contradicting
its own docstring ("a positive integer ... on a successful read, -1
otherwise"). -/
theorem read_RFID_card_zero_uid :
    read_RFID_card_legacy true true [0, 0, 0, 0] = 0 ∧
    ∀ e : RfidEnv, 0 < read_RFID_card e ∨ read_RFID_card e = -1 := by
  constructor
  · decide
  · intro e
    unfold read_RFID_card
    repeat' split
    all_goals try simp_all
    all_goals split_ifs <;> simp_all [Int.natCast_pos]

/-! ## Claim theorems for connector-failure handling -/

/-- One `get_card_type` run in which the query fetches card type 4 and the
trailing `cursor.close()` then raises a connector error. -/
def late_error_conn : CardTypeConn :=
  { connect := some (), execute := some (some 4), cursor_close := none,
    connection_close := some () }

/-- Claim C7, counterexample: a connector error raised while closing the
cursor — after the row was fetched — is swallowed, but `get_card_type`
then returns the fetched value 4, not its safe default `-1`. -/
theorem get_card_type_late_error_returns_fetched :
    get_card_type_raises true late_error_conn = true ∧
    get_card_type_run true late_error_conn = 4 := by
  decide

/-- Claim C7, amended: no connector error propagates (each operation is a
total function of its oracle), and the safe default — `false` for the
boolean query, `-1` for `get_card_type`, `(-1, -1, None, -1, None, -1)`
for `get_equipment_profile` — is returned whenever the error occurs at the
connection step or at a data query, i.e. before the result was fetched; an
error raised after the fetch (e.g. while closing) is still swallowed but
the already-fetched value is returned. -/
theorem db_operations_safe_defaults (p : Bool) (a : CardTypeConn)
    (b : ProfileConn) (c : AuthConn)
    (ha : card_type_early_raise a = true)
    (hb : profile_early_raise b = true)
    (hc : auth_query_raise c = true) :
    get_card_type_run p a = -1 ∧
    get_equipment_profile_run p b = default_profile ∧
    is_user_authorized_run p c = false := by
  refine ⟨?_, ?_, ?_⟩
  · obtain ⟨ac, ae, a1, a2⟩ := a
    cases ac <;> cases ae <;>
      simp_all [get_card_type_run, card_type_early_raise]
  · obtain ⟨bc, be, b1, b2⟩ := b
    cases bc <;> cases be <;>
      simp_all [get_equipment_profile_run, profile_early_raise]
  · obtain ⟨cc, cp, cpay, cauth, c1, c2⟩ := c
    cases cc <;> cases cp <;>
      simp_all [is_user_authorized_run, auth_query_raise]
    rename_i pol
    obtain ⟨rt, rp⟩ := pol
    cases rt <;> cases rp <;> cases cpay <;> cases cauth <;>
      simp_all [is_user_authorized_run, auth_query_raise]

/-- A `get_equipment_profile` oracle whose data query raises. -/
def profile_error_conn : ProfileConn :=
  { connect := some (), execute := none, cursor_close := some (),
    connection_close := some () }

/-- An authorization oracle whose connection attempt raises. -/
def auth_error_conn : AuthConn :=
  { connect := none, policy := some (true, true), payment_q := some 1,
    auth_q := some 1, cursor_close := some (), connection_close := some () }

/-- A `get_card_type` oracle whose connection attempt raises. -/
def card_type_error_conn : CardTypeConn :=
  { connect := none, execute := some (some 4), cursor_close := some (),
    connection_close := some () }

theorem db_operations_safe_defaults_witness :
    card_type_early_raise card_type_error_conn = true ∧
    profile_early_raise profile_error_conn = true ∧
    auth_query_raise auth_error_conn = true ∧
    (get_card_type_run true card_type_error_conn = -1 ∧
     get_equipment_profile_run true profile_error_conn = default_profile ∧
     is_user_authorized_run true auth_error_conn = false) :=
  ⟨by decide, by decide, by decide,
   db_operations_safe_defaults true card_type_error_conn profile_error_conn
     auth_error_conn (by decide) (by decide) (by decide)⟩

/-! ## Claim theorems for the LED strip driver -/

theorem run_ticks_succ (n : Nat) (s : DotstarStrip) :
    run_ticks (n + 1) s = run_ticks n (strip_tick s) := rfl

theorem run_ticks_wipe (k : Nat) (s : DotstarStrip)
    (hw : s.is_wiping = true) (hb : s.is_blinking = false)
    (hp : s.is_pulsing = false)
    (he : s.effect_time + k * LOOP_MS = s.duration) :
    (run_ticks (k + 1) s).led_colors = List.replicate s.length s.wipe_color ∧
    (run_ticks (k + 1) s).brightness = s.brightness ∧
    (run_ticks (k + 1) s).is_wiping = false := by
  induction k generalizing s with
  | zero =>
    have he0 : s.effect_time = s.duration := by simpa using he
    have hlt : ¬s.effect_time < s.duration := by omega
    rw [run_ticks_succ]
    simp only [run_ticks]
    unfold strip_tick
    simp [hw, hb, hp, hlt, DotstarStrip.fill_pixels]
  | succ k ih =>
    have hlt : s.effect_time < s.duration := by
      unfold LOOP_MS at he
      omega
    have hstep : strip_tick s = { s with
        led_colors := s.led_colors.set (s.effect_time / s.wait_ms) s.wipe_color,
        effect_time := s.effect_time + LOOP_MS } := by
      unfold strip_tick DotstarStrip.set_pixel_color
      simp [hw, hb, hp, hlt]
    have he2 : (s.effect_time + LOOP_MS) + k * LOOP_MS = s.duration := by
      unfold LOOP_MS at he ⊢
      omega
    rw [run_ticks_succ, hstep]
    have hrec := ih { s with
        led_colors := s.led_colors.set (s.effect_time / s.wait_ms) s.wipe_color,
        effect_time := s.effect_time + LOOP_MS }
      hw hb hp (by simpa using he2)
    simpa using hrec

set_option maxHeartbeats 1000000 in
/-- Claim C8: a `wipe r g b D` command on a strip of `N` pixels sets the
per-pixel wait to `D / N` rounded to the nearest 100 ms tick with a
minimum of one tick, and once the wipe effect has run to completion every
pixel of the strip holds `(r, g, b)` — the same pixel colors and the same
brightness as a `color r g b` command produces.  (`0 < N` matches the
hardware: in Python `D // 0` would raise `ZeroDivisionError`.) -/
theorem wipe_command_completion (s : DotstarStrip) (r g b d : Nat)
    (_hN : 0 < s.length) (hb : s.is_blinking = false)
    (hp : s.is_pulsing = false) :
    (process_command (Cmd.wipe r g b d) s).wait_ms =
      max LOOP_MS ((d / s.length + LOOP_MS / 2) / LOOP_MS * LOOP_MS) ∧
    (run_ticks ((process_command (Cmd.wipe r g b d) s).duration / LOOP_MS + 1)
        (process_command (Cmd.wipe r g b d) s)).led_colors =
      List.replicate s.length (r, g, b) ∧
    (run_ticks ((process_command (Cmd.wipe r g b d) s).duration / LOOP_MS + 1)
        (process_command (Cmd.wipe r g b d) s)).led_colors =
      (process_command (Cmd.color r g b) s).led_colors ∧
    (run_ticks ((process_command (Cmd.wipe r g b d) s).duration / LOOP_MS + 1)
        (process_command (Cmd.wipe r g b d) s)).brightness =
      (process_command (Cmd.color r g b) s).brightness := by
  set s1 := process_command (Cmd.wipe r g b d) s with hs1
  have f1 : s1.is_wiping = true := by rw [hs1]; rfl
  have f2 : s1.is_blinking = false := by rw [hs1]; rfl
  have f3 : s1.is_pulsing = false := by rw [hs1]; rfl
  have f4 : s1.effect_time = 0 := by rw [hs1]; rfl
  have f5 : s1.length = s.length := by rw [hs1]; rfl
  have f6 : s1.wipe_color = (r, g, b) := by rw [hs1]; rfl
  have f7 : s1.brightness = List.replicate s.length DEFAULT_BRIGHTNESS := by
    rw [hs1]; rfl
  have f8 : s1.wait_ms =
      (if (d / s.length + LOOP_MS / 2) / LOOP_MS * LOOP_MS < LOOP_MS
       then LOOP_MS
       else (d / s.length + LOOP_MS / 2) / LOOP_MS * LOOP_MS) := by
    rw [hs1]; rfl
  have f9 : s1.duration = s1.wait_ms * s.length := by rw [hs1]; rfl
  obtain ⟨m, hm⟩ : ∃ m, s1.wait_ms = LOOP_MS * m := by
    rw [f8]
    unfold LOOP_MS
    split_ifs
    · exact ⟨1, rfl⟩
    · exact ⟨(d / s.length + 50) / 100, (Nat.mul_comm _ _)⟩
  have hdur : s1.duration = LOOP_MS * (m * s.length) := by
    rw [f9, hm, Nat.mul_assoc]
  have hk : s1.duration / LOOP_MS * LOOP_MS = s1.duration := by
    rw [hdur, Nat.mul_div_cancel_left _ (by decide : 0 < LOOP_MS),
      Nat.mul_comm]
  have he : s1.effect_time + s1.duration / LOOP_MS * LOOP_MS = s1.duration := by
    rw [f4, hk, Nat.zero_add]
  obtain ⟨g1, g2, g3⟩ :=
    run_ticks_wipe (s1.duration / LOOP_MS) s1 f1 f2 f3 he
  have hcolor_led : (process_command (Cmd.color r g b) s).led_colors =
      List.replicate s.length (r, g, b) := by
    simp only [process_command, DotstarStrip.fill_pixels,
      DotstarStrip.set_brightness]
    split_ifs <;> simp_all
  have hcolor_br : (process_command (Cmd.color r g b) s).brightness =
      List.replicate s.length DEFAULT_BRIGHTNESS := by
    simp only [process_command, DotstarStrip.fill_pixels,
      DotstarStrip.set_brightness]
    split_ifs <;> simp_all
  refine ⟨?_, ?_, ?_, ?_⟩
  · rw [f8]
    unfold LOOP_MS
    split_ifs <;> omega
  · rw [g1, f5, f6]
  · rw [g1, f5, f6, hcolor_led]
  · rw [g2, f7, hcolor_br]


/-- A quiescent 3-pixel strip. -/
def sample_strip : DotstarStrip :=
  { length := 3, brightness := List.replicate 3 DEFAULT_BRIGHTNESS,
    led_colors := List.replicate 3 (0, 0, 0), is_pulsing := false,
    pulse_rising := false, is_blinking := false, blink_color := (0, 0, 0),
    is_wiping := false, wipe_color := (0, 0, 0), duration := 0,
    repeats := 0, wait_ms := 0, effect_time := 0 }

theorem wipe_command_completion_witness :
    (process_command (Cmd.wipe 10 20 30 250) sample_strip).wait_ms =
      max LOOP_MS ((250 / sample_strip.length + LOOP_MS / 2) / LOOP_MS * LOOP_MS) ∧
    (run_ticks
        ((process_command (Cmd.wipe 10 20 30 250) sample_strip).duration / LOOP_MS + 1)
        (process_command (Cmd.wipe 10 20 30 250) sample_strip)).led_colors =
      List.replicate sample_strip.length (10, 20, 30) ∧
    (run_ticks
        ((process_command (Cmd.wipe 10 20 30 250) sample_strip).duration / LOOP_MS + 1)
        (process_command (Cmd.wipe 10 20 30 250) sample_strip)).led_colors =
      (process_command (Cmd.color 10 20 30) sample_strip).led_colors ∧
    (run_ticks
        ((process_command (Cmd.wipe 10 20 30 250) sample_strip).duration / LOOP_MS + 1)
        (process_command (Cmd.wipe 10 20 30 250) sample_strip)).brightness =
      (process_command (Cmd.color 10 20 30) sample_strip).brightness :=
  wipe_command_completion sample_strip 10 20 30 250 (by decide) (by decide)
    (by decide)

/-! ## Claim theorems for the LED controller -/

/-- Claim C10: when the first queue drain succeeds, `flash_display`
transmits the identical blink command a second time and drains again — the
transcript contains the blink command twice and mentions the `end_color`
argument nowhere — so after the driver processes the transcript the strip
holds the flash color on every pixel, not `end_color`. -/
theorem flash_display_retransmits_blink (s : DotstarStrip)
    (flash_color end_color : Nat × Nat × Nat) (d flashes : Nat) :
    flash_display flash_color d flashes end_color true =
      [Cmd.blink flash_color.1 flash_color.2.1 flash_color.2.2 d flashes,
       Cmd.blink flash_color.1 flash_color.2.1 flash_color.2.2 d flashes] ∧
    ((flash_display flash_color d flashes end_color true).foldl
        (fun st c => process_command c st) s).led_colors =
      List.replicate s.length flash_color := by
  constructor
  · rfl
  · simp [flash_display, process_command, DotstarStrip.fill_pixels,
      DotstarStrip.set_brightness]

end PortalBoxProof
